import Mathlib

/-!
Verification development for the Pixel Heist core logic
(`pygame_arcade_project/games/pixel_heist/logic/`): guard AI
(`guard.py`), loot/stealing model (`loot_system.py`), line-of-sight
sampling (`collision.py`) and tile-grid map import (`map_loader.py`).

The Python source is shallowly embedded over exact rationals (ℚ):
Python floats become ℚ, so float rounding is idealized away.  The
transcendental functions the source calls (`math.sqrt`, `math.atan2`,
`math.sin`, `math.cos`, `math.radians`) have no exact rational
counterpart, so every embedded routine takes a `RealOps` record of
those functions as an explicit argument; theorems either hold for all
such records or constrain only the values the source actually uses
(e.g. `sqrt 225 = 15` on a Pythagorean input).  Comparisons of the
form `v.length() < c` with `c ≥ 0` are embedded as the equivalent
`lenSq v < c^2`, which avoids consulting `sqrt` on branches whose
outcome is determined (noted at each use).  Pygame sprite images,
surfaces and animation frames are rendering-only and are not part of
the model; mutation of `self` is embedded as state passing, and Python
exceptions as `Except String`.
-/

namespace PixelHeist

attribute [local semireducible] Rat.add Rat.sub Rat.mul Rat.inv

/-- A 2D vector over ℚ, embedding `pygame.math.Vector2`. -/
structure Vec where
  x : ℚ
  y : ℚ
deriving DecidableEq, Repr

/-- Componentwise vector subtraction (`Vector2.__sub__`). -/
def Vec.sub (a b : Vec) : Vec := ⟨a.x - b.x, a.y - b.y⟩

/-- Componentwise vector addition (`Vector2.__add__`). -/
def Vec.add (a b : Vec) : Vec := ⟨a.x + b.x, a.y + b.y⟩

/-- Vector-scalar product (`Vector2.__mul__` with a scalar). -/
def Vec.smul (a : Vec) (c : ℚ) : Vec := ⟨a.x * c, a.y * c⟩

/-- Squared Euclidean length; `Vector2.length()` is `sqrt` of this. -/
def Vec.lenSq (a : Vec) : ℚ := a.x * a.x + a.y * a.y

/-- An axis-aligned pygame `Rect`: integer left/top corner and size. -/
structure Rect where
  x : ℤ
  y : ℤ
  w : ℤ
  h : ℤ
deriving DecidableEq, Repr

/-- `Rect.colliderect`: true when the overlap has positive area
(touching edges do not collide). -/
def rectsCollide (a b : Rect) : Bool :=
  decide (a.x < b.x + b.w) && decide (a.x + a.w > b.x) &&
  decide (a.y < b.y + b.h) && decide (a.y + a.h > b.y)

/-- Conversion of a float to a C long as pygame's `Rect` constructor
and `int()` perform it: truncation toward zero. -/
def truncQ (q : ℚ) : ℤ := if 0 ≤ q then ⌊q⌋ else ⌈q⌉

/-- Python's float `%` operator for a positive modulus:
`a % b = a - b * floor(a / b)`. -/
def qmod (a b : ℚ) : ℚ := a - b * (⌊a / b⌋ : ℤ)

/-- The real-valued library functions the source calls.  ℚ has no
exact `sqrt`/`atan2`/`sin`/`cos`, so embedded code receives them as
data; theorems quantify over this record or pin down only the values
taken on the inputs at hand. -/
structure RealOps where
  sqrt : ℚ → ℚ
  atan2deg : ℚ → ℚ → ℚ
  sin : ℚ → ℚ
  cos : ℚ → ℚ
  radians : ℚ → ℚ

/-- A `RealOps` record returning 0 everywhere, used to instantiate
theorems on branches that never consult the record. -/
def trivialOps : RealOps :=
  ⟨fun _ => 0, fun _ _ => 0, fun _ => 0, fun _ => 0, fun _ => 0⟩

/-- `Vector2.normalize()`: raises `ValueError` on a zero-length
vector, otherwise divides by the length (`sqrt` of `lenSq`). -/
def Vec.normalizeE (a : Vec) (ops : RealOps) : Except String Vec :=
  if a.lenSq = 0 then Except.error "ValueError: cannot normalize a zero-length vector"
  else Except.ok ⟨a.x / ops.sqrt a.lenSq, a.y / ops.sqrt a.lenSq⟩

/-- `GuardState` enum from `guard.py`. -/
inductive GuardState where
  | PATROLLING
  | SUSPICIOUS
  | INVESTIGATING
  | ALERTED
  | SEARCHING
deriving DecidableEq, Repr

/-- Guard state, embedding the fields of `Guard.__init__` that the
logic reads or writes (sprite image, animation frames and the vision
cone surface are rendering-only and omitted). -/
structure Guard where
  position : Vec
  velocity : Vec
  patrol_points : List Vec
  current_patrol_point : ℕ
  patrol_wait_time : ℚ
  wait_timer : ℚ
  walk_speed : ℚ
  run_speed : ℚ
  current_speed : ℚ
  state : GuardState
  state_timer : ℚ
  suspicion_level : ℚ
  alert_position : Option Vec
  view_distance : ℚ
  view_angle : ℚ
  view_direction : ℚ
deriving DecidableEq, Repr

/-- `Guard.__init__(x, y, patrol_points=None)`.  Python's
`patrol_points or [(x, y)]` falls back to the single spawn waypoint
both for `None` and for an empty list (empty lists are falsy). -/
def mkGuard (x y : ℚ) (patrol_points : Option (List Vec)) : Guard where
  position := ⟨x, y⟩
  velocity := ⟨0, 0⟩
  patrol_points :=
    match patrol_points with
    | none => [⟨x, y⟩]
    | some [] => [⟨x, y⟩]
    | some ps => ps
  current_patrol_point := 0
  patrol_wait_time := 2
  wait_timer := 0
  walk_speed := 3/2
  run_speed := 3
  current_speed := 3/2
  state := .PATROLLING
  state_timer := 0
  suspicion_level := 0
  alert_position := none
  view_distance := 150
  view_angle := 90
  view_direction := 0

/-- Player state as read by guard detection (`player.position`,
`player.noise_level`, `player.is_crouching`). -/
structure Player where
  position : Vec
  noise_level : ℚ
  is_crouching : Bool
deriving DecidableEq, Repr

/-- `Guard.alert(position)`. -/
def Guard.alert (g : Guard) (position : Vec) : Guard :=
  { g with
    alert_position := some position
    state := .ALERTED
    state_timer := 0
    current_speed := g.run_speed
    suspicion_level := 100 }

/-- Vector from the guard to the player (`player.position - self.position`). -/
def guardToPlayer (g : Guard) (p : Player) : Vec := p.position.sub g.position

/-- `to_player.length()` as the source computes it, via `math.sqrt`. -/
def guardDistance (ops : RealOps) (g : Guard) (p : Player) : ℚ :=
  ops.sqrt (guardToPlayer g p).lenSq

/-- `math.degrees(math.atan2(to_player.y, to_player.x))` as supplied
by the `RealOps` record. -/
def guardAngle (ops : RealOps) (g : Guard) (p : Player) : ℚ :=
  ops.atan2deg (guardToPlayer g p).y (guardToPlayer g p).x

/-- `abs((angle - view_direction + 180) % 360 - 180)` from
`check_player_detection`. -/
def guardAngleDiff (ops : RealOps) (g : Guard) (p : Player) : ℚ :=
  |qmod (guardAngle ops g p - g.view_direction + 180) 360 - 180|

/-- `Guard.check_player_detection(player)`.  `random.random()` is
passed in as `draw`; the returned guard carries the `self.alert`
side effect of the success branch (all failure branches return the
guard unchanged, as the source touches no field on them). -/
def Guard.check_player_detection (g : Guard) (p : Player) (draw : ℚ) (ops : RealOps) :
    Bool × Guard :=
  let distance := guardDistance ops g p
  if distance > g.view_distance then (false, g)
  else
    let angle_diff := guardAngleDiff ops g p
    if angle_diff > g.view_angle / 2 then (false, g)
    else
      let chance0 := 1 - distance / g.view_distance
      let chance1 := chance0 * (1 + p.noise_level / 100)
      let detection_chance := if p.is_crouching then chance1 * (1/2) else chance1
      if draw < detection_chance then (true, g.alert p.position)
      else (false, g)

/-- Detection probability as §4.2 of the spec words it:
`(1 - distance/view_distance) * (1 + player.noise/100)`, halved if
the player is crouching.  Stated from the spec for comparison with
the embedded `check_player_detection`. -/
def spec_detection_chance (distance view_distance noise : ℚ) (crouching : Bool) : ℚ :=
  ((1 - distance / view_distance) * (1 + noise / 100)) * (if crouching then 1/2 else 1)

/-- `Guard.handle_patrol(dt)`.  `direction.length() < 2` is embedded
as `lenSq < 4` (equivalent since both sides are nonnegative);
list indexing raises `IndexError` when out of range, as in Python. -/
def Guard.handle_patrol (g : Guard) (dt : ℚ) (ops : RealOps) : Except String Guard :=
  if 0 < g.wait_timer then
    Except.ok { g with wait_timer := g.wait_timer - dt, velocity := ⟨0, 0⟩ }
  else
    match g.patrol_points.get? g.current_patrol_point with
    | none => Except.error "IndexError: list index out of range"
    | some target =>
      let direction := target.sub g.position
      if direction.lenSq < 4 then
        Except.ok { g with
          wait_timer := g.patrol_wait_time
          current_patrol_point := (g.current_patrol_point + 1) % g.patrol_points.length }
      else do
        let dirN ← direction.normalizeE ops
        Except.ok { g with
          velocity := dirN
          view_direction := ops.atan2deg dirN.y dirN.x }

/-- `Guard.handle_suspicious(dt)` (runs after `state_timer` was
already advanced by `update`). -/
def Guard.handle_suspicious (g : Guard) (ops : RealOps) : Guard :=
  if 3 < g.state_timer then
    { g with state := .PATROLLING, state_timer := 0 }
  else
    { g with view_direction := ops.sin (g.state_timer * 2) * 45, velocity := ⟨0, 0⟩ }

/-- `Guard.handle_investigation(dt)`.  Python's
`if not self.alert_position` is true both for `None` and for a zero
vector (pygame vectors are falsy when zero); `direction.length() < 5`
is embedded as `lenSq < 25`. -/
def Guard.handle_investigation (g : Guard) (ops : RealOps) : Except String Guard :=
  match g.alert_position with
  | none => Except.ok { g with state := .PATROLLING }
  | some ap =>
    if ap = ⟨0, 0⟩ then Except.ok { g with state := .PATROLLING }
    else
      let direction := ap.sub g.position
      if direction.lenSq < 25 then
        Except.ok { g with state := .SUSPICIOUS, state_timer := 0, alert_position := none }
      else do
        let dirN ← direction.normalizeE ops
        Except.ok { g with
          velocity := dirN
          view_direction := ops.atan2deg direction.y direction.x }

/-- `Guard.handle_alert(dt, player)`.  With a live player the source
normalizes `player.position - self.position` unconditionally, which
raises `ValueError` when the two coincide. -/
def Guard.handle_alert (g : Guard) (player : Option Player) (ops : RealOps) :
    Except String Guard :=
  match player with
  | none => Except.ok { g with state := .SEARCHING, state_timer := 0 }
  | some p => do
    let direction := p.position.sub g.position
    let dirN ← direction.normalizeE ops
    Except.ok { g with
      velocity := dirN
      view_direction := ops.atan2deg direction.y direction.x
      current_speed := g.run_speed }

/-- `Guard.handle_search(dt)`; the two `random` draws are passed in
(`r1` for the 2% re-heading draw, `r2` for `random.uniform(0, 360)`). -/
def Guard.handle_search (g : Guard) (r1 r2 : ℚ) (ops : RealOps) : Guard :=
  if 10 < g.state_timer then
    { g with state := .PATROLLING, state_timer := 0, current_speed := g.walk_speed }
  else
    if r1 < 1/50 then
      { g with
        velocity := ⟨ops.cos (ops.radians r2), ops.sin (ops.radians r2)⟩
        view_direction := r2 }
    else g

/-- The guard's 32×32 placeholder sprite rect re-centered on the
truncated position (`self.rect.center = (int(x), int(y))`). -/
def guardRect (pos : Vec) : Rect := ⟨truncQ pos.x - 16, truncQ pos.y - 16, 32, 32⟩

/-- `Guard.move(dt, walls)`: integrate position, then roll the whole
step back and zero the velocity on any wall collision.  Python's
`if walls:` skips the collision test for `None` or an empty group. -/
def Guard.move (g : Guard) (dt : ℚ) (walls : List Rect) : Guard :=
  let old_position := g.position
  let g := { g with position := g.position.add ((g.velocity.smul dt).smul g.current_speed) }
  if walls.isEmpty then g
  else if walls.any (fun w => rectsCollide (guardRect g.position) w) then
    { g with position := old_position, velocity := ⟨0, 0⟩ }
  else g

/-- `Guard.update(dt, player=None, walls=None)`: advance the state
timer, run the current state's handler, move, then run detection when
a player is given (its boolean result is discarded by the source, its
`alert` side effect kept).  `update_animation` only mutates
rendering-only fields for a sprite-less guard and is omitted. -/
def Guard.update (g : Guard) (dt : ℚ) (player : Option Player) (walls : List Rect)
    (r1 r2 draw : ℚ) (ops : RealOps) : Except String Guard := do
  let g := { g with state_timer := g.state_timer + dt }
  let g ←
    match g.state with
    | .PATROLLING => g.handle_patrol dt ops
    | .SUSPICIOUS => Except.ok (g.handle_suspicious ops)
    | .INVESTIGATING => g.handle_investigation ops
    | .ALERTED => g.handle_alert player ops
    | .SEARCHING => Except.ok (g.handle_search r1 r2 ops)
  let g := g.move dt walls
  let g :=
    match player with
    | some p => (g.check_player_detection p draw ops).2
    | none => g
  Except.ok g

/-- `LootType` enum from `loot_system.py`. -/
inductive LootType where
  | CASH
  | JEWELS
  | ARTWORK
  | ARTIFACT
  | DOCUMENT
deriving DecidableEq, Repr

/-- The `base_times` table of `LootItem._get_steal_time`.  Every
`LootType` is a key, so the Python `.get(self.loot_type, 2.0)`
default is never taken. -/
def base_times : LootType → ℚ
  | .CASH => 1
  | .JEWELS => 2
  | .ARTWORK => 3
  | .ARTIFACT => 4
  | .DOCUMENT => 3/2

/-- `LootItem._get_steal_time`:
`base_times[type] * (1.0 + value / 1000)`. -/
def get_steal_time (loot_type : LootType) (value : ℚ) : ℚ :=
  base_times loot_type * (1 + value / 1000)

/-- Loot item state: the logic fields of `LootItem.__init__` (sprite
image, animation and hover rendering fields omitted; the rect center
is kept as `pos`). -/
structure LootItem where
  pos : Vec
  loot_type : LootType
  value : ℚ
  steal_time : ℚ
  being_stolen : Bool
  steal_progress : ℚ
deriving DecidableEq, Repr

/-- `LootItem.__init__(x, y, loot_type, value)`. -/
def mkLootItem (x y : ℚ) (loot_type : LootType) (value : ℚ) : LootItem where
  pos := ⟨x, y⟩
  loot_type := loot_type
  value := value
  steal_time := get_steal_time loot_type value
  being_stolen := false
  steal_progress := 0

/-- `LootItem.start_stealing`: returns success and the updated item. -/
def LootItem.start_stealing (it : LootItem) : Bool × LootItem :=
  if !it.being_stolen then
    (true, { it with being_stolen := true, steal_progress := 0 })
  else (false, it)

/-- `LootItem.stop_stealing`: returns success and the updated item. -/
def LootItem.stop_stealing (it : LootItem) : Bool × LootItem :=
  if it.being_stolen then
    (true, { it with being_stolen := false, steal_progress := 0 })
  else (false, it)

/-- `LootItem.update_stealing(dt)`: returns completion and the
updated item. -/
def LootItem.update_stealing (it : LootItem) (dt : ℚ) : Bool × LootItem :=
  if it.being_stolen then
    let progress_per_second := 100 / it.steal_time
    let it := { it with steal_progress := it.steal_progress + progress_per_second * dt }
    (decide (100 ≤ it.steal_progress), it)
  else (false, it)

/-- Loot manager state: the live sprite group is kept as a list (the
source's `pygame.sprite.Group` iterates its sprites; membership and
removal are embedded structurally, which agrees with the source
whenever items are distinct objects with distinct field values).
The `loot_configs` table only feeds the random draws, which are
passed in explicitly, so it is not part of the state. -/
structure LootManager where
  loot_sprites : List LootItem
  total_value : ℚ
  collected_value : ℚ
deriving DecidableEq, Repr

/-- Sum of the values of the live loot items. -/
def sumValues (l : List LootItem) : ℚ := (l.map LootItem.value).sum

/-- `LootManager.generate_loot(x, y, loot_type=None, value=None)`.
When `loot_type` (resp. `value`) is `None` the source draws
`random.choices`/`random.randint`; those draws are supplied as
`randType`/`randValue`. -/
def LootManager.generate_loot (m : LootManager) (x y : ℚ)
    (loot_type : Option LootType) (value : Option ℚ)
    (randType : LootType) (randValue : ℚ) : LootItem × LootManager :=
  let lt := loot_type.getD randType
  let v := value.getD randValue
  let loot := mkLootItem x y lt v
  (loot, { m with
    loot_sprites := m.loot_sprites ++ [loot]
    total_value := m.total_value + v })

/-- `LootManager.collect_loot(loot_item)`: returns the value credited
(0 when the item is not live) and the updated manager. -/
def LootManager.collect_loot (m : LootManager) (it : LootItem) : ℚ × LootManager :=
  if it ∈ m.loot_sprites then
    (it.value, { m with
      collected_value := m.collected_value + it.value
      loot_sprites := m.loot_sprites.erase it })
  else (0, m)

/-- `LootManager.__init__`: empty group, zero totals, then
`create_test_loot` generates five fixed items. -/
def LootManager.init : LootManager :=
  let m : LootManager := ⟨[], 0, 0⟩
  let m := (m.generate_loot 100 100 (some .CASH) (some 200) .CASH 0).2
  let m := (m.generate_loot 200 150 (some .JEWELS) (some 500) .CASH 0).2
  let m := (m.generate_loot 300 200 (some .ARTWORK) (some 1000) .CASH 0).2
  let m := (m.generate_loot 400 250 (some .ARTIFACT) (some 1500) .CASH 0).2
  (m.generate_loot 500 300 (some .DOCUMENT) (some 3000) .CASH 0).2

/-- The accounting invariant of the loot manager: credited value plus
the value still in the live collection equals the total generated. -/
def LootManager.inv (m : LootManager) : Prop :=
  m.collected_value + sumValues m.loot_sprites = m.total_value

/-- The 4×4 probe square of `check_line_of_sight`:
`pygame.Rect(x - 2, y - 2, 4, 4)` (float corners truncated). -/
def mkProbe (x y : ℚ) : Rect := ⟨truncQ (x - 2), truncQ (y - 2), 4, 4⟩

/-- One ray-march probe: does the 4×4 square at `(x, y)` hit any wall. -/
def probeHits (walls : List Rect) (x y : ℚ) : Bool :=
  walls.any (fun w => rectsCollide (mkProbe x y) w)

/-- Number of iterations of the `while current_distance < distance`
loop: the values `0, step, 2*step, …` strictly below `distance`,
i.e. `⌈distance / step⌉` for positive `step`.  (For `step ≤ 0` the
Python loop does not terminate; the claims only exercise the default
`step = 5`, and theorems assume `0 < step`.) -/
def numSteps (distance step : ℚ) : ℕ :=
  if 0 < step then (⌈distance / step⌉).toNat else 0

/-- `check_line_of_sight(start_pos, end_pos, wall_sprites, step=5)`.
The source computes `distance = math.sqrt(dx*dx + dy*dy)`; that value
is passed in as `dist` (compare `RealOps.sqrt`), and theorems
constrain it by `0 ≤ dist ∧ dist * dist = dx*dx + dy*dy`.  The
`distance == 0` early return is embedded as `dSq = 0`, which is
equivalent.  Sample `k` sits at `current_distance = k * step`
(repeated `+= step` is exact over ℚ). -/
def check_line_of_sight (start_pos end_pos : Vec) (walls : List Rect)
    (step : ℚ) (dist : ℚ) : Bool :=
  let dx := end_pos.x - start_pos.x
  let dy := end_pos.y - start_pos.y
  let dSq := dx * dx + dy * dy
  if dSq = 0 then true
  else
    let ux := dx / dist
    let uy := dy / dist
    (List.range (numSteps dist step)).all fun k =>
      !probeHits walls (start_pos.x + ux * (k * step)) (start_pos.y + uy * (k * step))

/-- The point a fraction `r` of the way from `a` to `b` (used to
exhibit a segment point inside an obstacle). -/
def segPoint (a b : Vec) (r : ℚ) : Vec :=
  ⟨a.x + (b.x - a.x) * r, a.y + (b.y - a.y) * r⟩

/-- Is a ℚ-point strictly inside the half-open extent of a pygame
rect (the region the rect occupies). -/
def pointInRectQ (p : Vec) (r : Rect) : Bool :=
  decide ((r.x : ℚ) ≤ p.x) && decide (p.x < ((r.x + r.w : ℤ) : ℚ)) &&
  decide ((r.y : ℚ) ≤ p.y) && decide (p.y < ((r.y + r.h : ℤ) : ℚ))

/-- A tileset entry (`tiles[i]` of a tileset in the map JSON): its
semantic `type`, display `name` and `properties`, each optional. -/
structure TileInfo where
  ttype : Option String
  tname : Option String
  properties : Option (List (String × String))
deriving DecidableEq, Repr

/-- A tileset of the map JSON: `firstgid` (default 1) and its tiles. -/
structure Tileset where
  firstgid : ℤ
  tiles : List TileInfo
deriving DecidableEq, Repr

/-- A map layer: its name and flat row-major tile-ID array. -/
structure Layer where
  lname : String
  data : List ℤ
deriving DecidableEq, Repr

/-- Parsed map JSON as `MapLoader.load_map` stores it: `width`,
`height`, `layers`, `tilesets` (objects are read by the spawn-point
getters, which the claims do not touch). -/
structure MapData where
  width : ℕ
  height : ℕ
  layers : List Layer
  tilesets : List Tileset
deriving DecidableEq, Repr

/-- A created tile sprite: position in pixels, semantic type and
properties (the image is rendering-only and omitted; which sprite
group receives the tile is determined by `tile_type`). -/
structure Tile where
  x : ℤ
  y : ℤ
  tile_type : String
  properties : List (String × String)
deriving DecidableEq, Repr

/-- `MapLoader._get_tile_info(tile_id)`: first tileset whose range
`[firstgid, firstgid + len(tiles))` contains the ID yields
`tiles[tile_id - firstgid]`; no match yields the empty dict,
embedded as `none`. -/
def get_tile_info (md : MapData) (tile_id : ℤ) : Option TileInfo :=
  md.tilesets.findSome? fun tset =>
    if tset.firstgid ≤ tile_id ∧ tile_id < tset.firstgid + tset.tiles.length then
      tset.tiles.get? (tile_id - tset.firstgid).toNat
    else none

/-- The body of the `for y … for x …` loop of
`MapLoader._create_tiles` for one grid cell: `none` when the cell is
skipped (`idx >= len(layer_data)` or `tile_id == 0`), otherwise the
created tile.  The type lookup on the tile info dict defaults a
missing entry to wall; the `tile_name`/image lookup only selects the
rendering surface and is omitted. -/
def cellTile (tile_size : ℤ) (md : MapData) (layer : Layer) (x y : ℕ) : Option Tile :=
  let idx := y * md.width + x
  match layer.data.get? idx with
  | none => none
  | some tile_id =>
    if tile_id = 0 then none
    else
      let tile_info := get_tile_info md tile_id
      let tile_type := (tile_info.bind TileInfo.ttype).getD "wall"
      let props := (tile_info.bind TileInfo.properties).getD []
      some ⟨(x : ℤ) * tile_size, (y : ℤ) * tile_size, tile_type, props⟩

/-- `MapLoader._create_tiles`: for every layer, walk the
`height × width` grid and create the non-skipped tiles
(`tile_size` is the `MapLoader` constructor argument, default 16). -/
def create_tiles (tile_size : ℤ) (md : MapData) : List Tile :=
  md.layers.flatMap fun layer =>
    (List.range md.height).flatMap fun y =>
      (List.range md.width).filterMap fun x =>
        cellTile tile_size md layer x y

/-! ## Helper lemmas -/

/-- The crouch-conditional probability expression of
`check_player_detection` equals the spec's formula. -/
lemma code_chance_eq_spec (d vd noise : ℚ) (c : Bool) :
    (if c then ((1 - d / vd) * (1 + noise / 100)) * (1/2)
     else (1 - d / vd) * (1 + noise / 100)) =
      spec_detection_chance d vd noise c := by
  cases c <;> simp [spec_detection_chance]

/-- Canonical form of the detection check: the three guards of the
source in sequence, with the probability written as the spec
formula. -/
lemma check_player_detection_eq (ops : RealOps) (g : Guard) (p : Player) (draw : ℚ) :
    g.check_player_detection p draw ops =
      if g.view_distance < guardDistance ops g p then (false, g)
      else if g.view_angle / 2 < guardAngleDiff ops g p then (false, g)
      else if draw < spec_detection_chance (guardDistance ops g p) g.view_distance
          p.noise_level p.is_crouching then (true, g.alert p.position)
      else (false, g) := by
  unfold Guard.check_player_detection
  rw [← code_chance_eq_spec]

/-! ## C1: detection probability formula and its endpoint values -/

/-- C1.  Whenever the player is within view distance and within the
view half-angle, the per-tick detection check succeeds exactly when
the uniform draw is below
`(1 - distance/view_distance) * (1 + noise/100)`, halved when
crouching; that probability is exactly 1 at distance 0 with noise 0
not crouching (so any draw in [0,1) succeeds) and exactly 0 at
distance equal to the view distance (so no nonnegative draw ever
succeeds). -/
theorem c1_detection_probability (ops : RealOps) (g : Guard) (p : Player) (draw : ℚ) :
    (¬ g.view_distance < guardDistance ops g p →
     ¬ g.view_angle / 2 < guardAngleDiff ops g p →
     ((g.check_player_detection p draw ops).1 = true ↔
       draw < spec_detection_chance (guardDistance ops g p) g.view_distance
         p.noise_level p.is_crouching))
    ∧ (∀ vd : ℚ, spec_detection_chance 0 vd 0 false = 1)
    ∧ (∀ vd noise : ℚ, ∀ c : Bool, vd ≠ 0 → spec_detection_chance vd vd noise c = 0)
    ∧ (0 ≤ draw → draw < 1 → draw < spec_detection_chance 0 g.view_distance 0 false)
    ∧ (g.view_distance ≠ 0 → 0 ≤ draw →
       ¬ draw < spec_detection_chance g.view_distance g.view_distance
           p.noise_level p.is_crouching) := by
  refine ⟨?_, ?_, ?_, ?_, ?_⟩
  · intro h1 h2
    rw [check_player_detection_eq, if_neg h1, if_neg h2]
    constructor
    · intro h
      by_contra hc
      rw [if_neg hc] at h
      exact Bool.false_ne_true h
    · intro h
      rw [if_pos h]
  · intro vd
    simp [spec_detection_chance]
  · intro vd noise c hvd
    simp [spec_detection_chance, div_self hvd]
  · intro h0 h1
    simpa [spec_detection_chance] using h1
  · intro hvd h0
    simp [spec_detection_chance, div_self hvd]
    linarith

/-- Witness for C1: the default guard with the player at its own
position (distance 0, noise 0, standing) is detected by a draw of
1/3. -/
theorem c1_detection_probability_witness :
    ((mkGuard 0 0 none).check_player_detection ⟨⟨0, 0⟩, 0, false⟩ (1/3) trivialOps).1 = true :=
  ((c1_detection_probability trivialOps (mkGuard 0 0 none) ⟨⟨0, 0⟩, 0, false⟩ (1/3)).1
    (by decide) (by decide)).mpr (by decide)

/-! ## C9: a failed detection check changes nothing -/

/-- C9.  When the detection check does not succeed (player beyond the
view distance, outside the half-angle, or the draw at or above the
probability), it returns false and the guard is unchanged; moreover a
false result always leaves the guard unchanged. -/
theorem c9_detection_failure_changes_nothing (ops : RealOps) (g : Guard) (p : Player)
    (draw : ℚ) :
    ((g.check_player_detection p draw ops).1 = false →
      (g.check_player_detection p draw ops).2 = g)
    ∧ (g.view_distance < guardDistance ops g p ∨
       g.view_angle / 2 < guardAngleDiff ops g p ∨
       spec_detection_chance (guardDistance ops g p) g.view_distance
         p.noise_level p.is_crouching ≤ draw →
       g.check_player_detection p draw ops = (false, g)) := by
  constructor
  · intro h
    rw [check_player_detection_eq] at h ⊢
    split_ifs at h ⊢ <;> first | rfl | exact absurd h (by simp)
  · intro h
    rw [check_player_detection_eq]
    split_ifs with h1 h2 h3
    · rfl
    · rfl
    · exfalso
      rcases h with h | h | h
      · exact h1 h
      · exact h2 h
      · linarith
    · rfl

/-- Witness for C9: a player 200 to the right of the default guard is
beyond the 150 view distance, so the check fails and returns the
guard unchanged (the `RealOps` record returns 200 for `sqrt 40000`). -/
theorem c9_detection_failure_changes_nothing_witness :
    (mkGuard 0 0 none).check_player_detection ⟨⟨200, 0⟩, 0, false⟩ (1/2)
      { trivialOps with sqrt := fun q => if q = 40000 then 200 else 0 } =
      (false, mkGuard 0 0 none) :=
  (c9_detection_failure_changes_nothing
      { trivialOps with sqrt := fun q => if q = 40000 then 200 else 0 }
      (mkGuard 0 0 none) ⟨⟨200, 0⟩, 0, false⟩ (1/2)).2
    (Or.inl (by decide))

/-! ## C5: a successful detection alerts the guard -/

/-- C5.  From every state, a successful per-tick detection check
yields the `alert` transition and nothing else: last-known position
set to the player's position, state ALERTED, state timer 0, speed set
to the run speed, suspicion 100, and every other field unchanged (the
record update keeps all remaining fields of `g`). -/
theorem c5_detection_success_alerts (ops : RealOps) (g : Guard) (p : Player) (draw : ℚ)
    (h : (g.check_player_detection p draw ops).1 = true) :
    (g.check_player_detection p draw ops).2 =
      { g with
        alert_position := some p.position
        state := .ALERTED
        state_timer := 0
        current_speed := g.run_speed
        suspicion_level := 100 } := by
  rw [check_player_detection_eq] at h ⊢
  split_ifs at h ⊢ <;> first | rfl | exact absurd h (by simp)

/-- Witness for C5: the concrete successful check of the default
guard detecting a player at its own position with draw 1/2. -/
theorem c5_detection_success_alerts_witness :
    ((mkGuard 0 0 none).check_player_detection ⟨⟨0, 0⟩, 0, false⟩ (1/2) trivialOps).2 =
      { mkGuard 0 0 none with
        alert_position := some ⟨0, 0⟩
        state := .ALERTED
        state_timer := 0
        current_speed := (mkGuard 0 0 none).run_speed
        suspicion_level := 100 } :=
  c5_detection_success_alerts trivialOps (mkGuard 0 0 none) ⟨⟨0, 0⟩, 0, false⟩ (1/2)
    (by decide)

/-! ## C2: exception safety of the per-tick update -/

/-- C2 (code bug exhibit).  A guard in the ALERTED state updated with
the player exactly at the guard position: `handle_alert` normalizes
the zero chase vector and the `ValueError` of
`pygame.math.Vector2.normalize` propagates out of `Guard.update`,
contradicting the spec rule that no exception may propagate out of a
per-tick update call.  The alerted state is itself produced by the
source-level `alert` transition. -/
theorem c2_update_raises_on_zero_chase_vector :
    ((mkGuard 50 50 none).alert ⟨50, 50⟩).update (1/60)
        (some ⟨⟨50, 50⟩, 0, false⟩) [] 0 0 0 trivialOps =
      Except.error "ValueError: cannot normalize a zero-length vector" := by
  rfl

/-! ## C6: steal duration formula, base-time ordering, monotonicity -/

/-- C6.  The steal duration is `base_times[type] * (1 + value/1000)`;
the per-type base times make CASH strictly fastest and ARTIFACT
strictly slowest; hence for any common nonnegative value a CASH item
steals strictly faster than an ARTIFACT item, and for a fixed type
the duration is strictly increasing in the value. -/
theorem c6_steal_duration (t : LootType) (v v1 v2 : ℚ) :
    get_steal_time t v = base_times t * (1 + v / 1000)
    ∧ (t ≠ .CASH → base_times .CASH < base_times t)
    ∧ (t ≠ .ARTIFACT → base_times t < base_times .ARTIFACT)
    ∧ (0 ≤ v → get_steal_time .CASH v < get_steal_time .ARTIFACT v)
    ∧ (v1 < v2 → get_steal_time t v1 < get_steal_time t v2) := by
  have hden : (0:ℚ) ≤ 1000 := by norm_num
  refine ⟨rfl, ?_, ?_, ?_, ?_⟩
  · intro h
    cases t <;> first | exact absurd rfl h | decide
  · intro h
    cases t <;> first | exact absurd rfl h | decide
  · intro hv
    have ha : 0 ≤ v / 1000 := div_nonneg hv hden
    simp only [get_steal_time, base_times]
    nlinarith
  · intro h12
    have hq : v1 / 1000 < v2 / 1000 := by
      apply div_lt_div_of_pos_right h12
      norm_num
    cases t <;> simp only [get_steal_time, base_times] <;> nlinarith

/-- Witness for C6: a CASH item of value 200 steals strictly faster
than an ARTIFACT of value 200. -/
theorem c6_steal_duration_witness :
    get_steal_time .CASH 200 < get_steal_time .ARTIFACT 200 :=
  (c6_steal_duration .CASH 200 0 0).2.2.2.1 (by norm_num)

/-! ## C7: duplicate steal start is a failing no-op; stop resets -/

/-- C7.  On an item already being stolen, `start_stealing` returns
failure and the whole item — flag and progress included — is
unchanged; `stop_stealing` returns success, clears the flag and
resets the progress to 0 while leaving every other field unchanged. -/
theorem c7_steal_start_stop (it : LootItem) (h : it.being_stolen = true) :
    it.start_stealing = (false, it)
    ∧ it.stop_stealing =
        (true, { it with being_stolen := false, steal_progress := 0 }) := by
  constructor
  · simp [LootItem.start_stealing, h]
  · simp [LootItem.stop_stealing, h]

/-- Witness for C7: a fresh CASH item whose steal was started once. -/
theorem c7_steal_start_stop_witness :
    ((mkLootItem 5 5 .CASH 100).start_stealing.2).start_stealing =
      (false, (mkLootItem 5 5 .CASH 100).start_stealing.2) :=
  (c7_steal_start_stop ((mkLootItem 5 5 .CASH 100).start_stealing.2) (by decide)).1

/-! ## C10: loot manager accounting invariant -/

/-- C10.  `collected_value + (sum of live item values) = total_value`
holds after construction, is preserved by every `generate_loot` and
every `collect_loot`, and collecting an item that is not live returns
0 and leaves the manager unchanged. -/
theorem c10_manager_invariant :
    LootManager.init.inv
    ∧ (∀ (m : LootManager) (x y : ℚ) (lt : Option LootType) (v : Option ℚ)
        (rT : LootType) (rV : ℚ), m.inv → (m.generate_loot x y lt v rT rV).2.inv)
    ∧ (∀ (m : LootManager) (it : LootItem), m.inv → (m.collect_loot it).2.inv)
    ∧ (∀ (m : LootManager) (it : LootItem), it ∉ m.loot_sprites →
        m.collect_loot it = (0, m)) := by
  refine ⟨?_, ?_, ?_, ?_⟩
  · show _ = _
    decide
  · intro m x y lt v rT rV hm
    unfold LootManager.inv LootManager.generate_loot at *
    simp only [sumValues, List.map_append, List.sum_append, List.map_cons, List.map_nil,
      List.sum_cons, List.sum_nil, mkLootItem] at *
    linarith
  · intro m it hm
    unfold LootManager.inv LootManager.collect_loot at *
    split_ifs with hmem
    · have hperm : m.loot_sprites.Perm (it :: m.loot_sprites.erase it) :=
        List.perm_cons_erase hmem
      have hsum : sumValues m.loot_sprites = it.value + sumValues (m.loot_sprites.erase it) := by
        simpa [sumValues] using (hperm.map LootItem.value).sum_eq
      simp only at *
      linarith
    · exact hm
  · intro m it hmem
    unfold LootManager.collect_loot
    rw [if_neg hmem]

/-- Witness for C10: the invariant holds after collecting the CASH
test item from the freshly constructed manager. -/
theorem c10_manager_invariant_witness :
    ((LootManager.init).collect_loot (mkLootItem 100 100 .CASH 200)).2.inv :=
  c10_manager_invariant.2.2.1 LootManager.init (mkLootItem 100 100 .CASH 200)
    c10_manager_invariant.1

/-! ## C3: line-of-sight sampling -/

/-- The squared displacement vanishes exactly for equal endpoints. -/
lemma dispSq_eq_zero_iff (s e : Vec) :
    (e.x - s.x) * (e.x - s.x) + (e.y - s.y) * (e.y - s.y) = 0 ↔ s = e := by
  constructor
  · intro h
    have hx : (e.x - s.x) * (e.x - s.x) = 0 := by
      nlinarith [mul_self_nonneg (e.x - s.x), mul_self_nonneg (e.y - s.y)]
    have hy : (e.y - s.y) * (e.y - s.y) = 0 := by
      nlinarith [mul_self_nonneg (e.x - s.x), mul_self_nonneg (e.y - s.y)]
    have hx0 : e.x = s.x := by have := mul_self_eq_zero.mp hx; linarith
    have hy0 : e.y = s.y := by have := mul_self_eq_zero.mp hy; linarith
    cases s
    cases e
    simp only [Vec.mk.injEq]
    exact ⟨hx0.symm, hy0.symm⟩
  · intro h
    subst h
    ring

/-- C3 counterexample.  The segment from (23/5, 124/5) to
(83/5, 79/5) (length exactly 15) crosses the 6×6 obstacle at
(10, 20) — the point 7/15 of the way lies strictly inside the
segment and inside the obstacle, whose width and height both exceed
the sampling step 5 — yet `check_line_of_sight` with the default
step returns true: all three sampled probe squares (at arc lengths
0, 5, 10) miss the obstacle, whose crossing window falls strictly
between consecutive samples. -/
theorem c3_los_misses_crossed_obstacle :
    ((0:ℚ) ≤ 15 ∧
      (15:ℚ) * 15 = (83/5 - 23/5) * (83/5 - 23/5) + (79/5 - 124/5) * (79/5 - 124/5))
    ∧ ((0:ℚ) < 7/15 ∧ (7:ℚ)/15 < 1)
    ∧ pointInRectQ (segPoint ⟨23/5, 124/5⟩ ⟨83/5, 79/5⟩ (7/15)) ⟨10, 20, 6, 6⟩ = true
    ∧ ((5:ℤ) < (⟨10, 20, 6, 6⟩ : Rect).w ∧ (5:ℤ) < (⟨10, 20, 6, 6⟩ : Rect).h)
    ∧ check_line_of_sight ⟨23/5, 124/5⟩ ⟨83/5, 79/5⟩ [⟨10, 20, 6, 6⟩] 5 15 = true := by
  refine ⟨⟨by norm_num, by norm_num⟩, ⟨by norm_num, by norm_num⟩, by decide, ⟨by decide, by decide⟩, by decide⟩

/-- C3 (amended).  Equal endpoints give true; when no sampled probe
square meets an obstacle the result is true; and when some sampled
probe square meets an obstacle (with distinct endpoints) the result
is false.  The stronger original reading — every segment crossing an
obstacle strictly wider than the step yields false — fails, because a
crossing can fall strictly between consecutive samples (see the
counterexample). -/
theorem c3_line_of_sight (s e : Vec) (walls : List Rect) (step dist : ℚ) :
    (s = e → check_line_of_sight s e walls step dist = true)
    ∧ ((∀ k, k < numSteps dist step →
          probeHits walls (s.x + (e.x - s.x) / dist * (k * step))
            (s.y + (e.y - s.y) / dist * (k * step)) = false) →
        check_line_of_sight s e walls step dist = true)
    ∧ (∀ k, k < numSteps dist step →
        probeHits walls (s.x + (e.x - s.x) / dist * (k * step))
          (s.y + (e.y - s.y) / dist * (k * step)) = true →
        s ≠ e →
        check_line_of_sight s e walls step dist = false) := by
  refine ⟨?_, ?_, ?_⟩
  · intro h
    subst h
    unfold check_line_of_sight
    rw [if_pos (by ring)]
  · intro hall
    unfold check_line_of_sight
    dsimp only
    split_ifs with h0
    · rfl
    · rw [List.all_eq_true]
      intro k hk
      rw [List.mem_range] at hk
      rw [hall k hk]
      rfl
  · intro k hk hhit hne
    unfold check_line_of_sight
    dsimp only
    split_ifs with h0
    · exact absurd ((dispSq_eq_zero_iff s e).mp h0) hne
    · rw [List.all_eq_false]
      exact ⟨k, List.mem_range.mpr hk, by simp [hhit]⟩

/-- Witness for C3: an obstacle-free 3-4-5 segment of length 15 — no
sampled probe hits anything, so line of sight holds. -/
theorem c3_line_of_sight_witness :
    check_line_of_sight ⟨0, 0⟩ ⟨12, 9⟩ [] 5 15 = true :=
  (c3_line_of_sight ⟨0, 0⟩ ⟨12, 9⟩ [] 5 15).2.1 (by decide)

/-! ## C4: map import tile skipping -/

/-- C4 counterexample.  In a 1×1 map whose single layer holds the
nonzero tile ID 7 and whose tileset list is empty, the ID matches no
tileset range (`_get_tile_info` yields the empty dict), yet the map
loading does create a tile sprite for it: the missing type defaults
to wall and a wall tile at (0, 0) is produced, refuting the claim
that no tile sprite is created for such an ID. -/
theorem c4_unmatched_id_creates_wall_tile :
    get_tile_info ⟨1, 1, [⟨"walls", [7]⟩], []⟩ 7 = none
    ∧ create_tiles 16 ⟨1, 1, [⟨"walls", [7]⟩], []⟩ = [⟨0, 0, "wall", []⟩] := by
  exact ⟨by decide, by decide⟩

/-- C4 (amended).  Per grid cell: an index past the end of a short
layer data array is skipped, a tile ID of 0 is skipped, and a nonzero
tile ID matching no tileset range is NOT skipped — it produces a
placeholder tile of wall type with empty properties.  The embedded
map loading is a total function, so it completes without raising. -/
theorem c4_tile_skipping (ts : ℤ) (md : MapData) (layer : Layer) (x y : ℕ) :
    (layer.data.length ≤ y * md.width + x → cellTile ts md layer x y = none)
    ∧ (layer.data.get? (y * md.width + x) = some 0 → cellTile ts md layer x y = none)
    ∧ (∀ tid : ℤ, layer.data.get? (y * md.width + x) = some tid → tid ≠ 0 →
        get_tile_info md tid = none →
        cellTile ts md layer x y = some ⟨(x : ℤ) * ts, (y : ℤ) * ts, "wall", []⟩) := by
  refine ⟨?_, ?_, ?_⟩
  · intro h
    unfold cellTile
    dsimp only
    rw [List.get?_eq_none.mpr h]
  · intro h
    unfold cellTile
    dsimp only
    rw [h]
    rfl
  · intro tid h hnz hinfo
    unfold cellTile
    dsimp only
    rw [h]
    dsimp only
    rw [if_neg hnz, hinfo]
    rfl

/-- Witness for C4: a 2×2 grid whose layer data has a single entry —
cell (1, 1) has index 3, past the end, and is skipped. -/
theorem c4_tile_skipping_witness :
    cellTile 16 ⟨2, 2, [⟨"L", [5]⟩], []⟩ ⟨"L", [5]⟩ 1 1 = none :=
  (c4_tile_skipping 16 ⟨2, 2, [⟨"L", [5]⟩], []⟩ ⟨"L", [5]⟩ 1 1).1 (by decide)

/-! ## C8: a guard with an empty patrol route stands still -/

/-- A sequence of per-tick updates in which the guard patrols alone:
no player, no walls (the search/detection random draws are never
consulted in the patrolling state and are fixed at 0). -/
def patrolRun (g : Guard) (dts : List ℚ) (ops : RealOps) : Except String Guard :=
  dts.foldlM (fun h dt => h.update dt none [] 0 0 0 ops) g

/-- The C8 invariant: a patrolling guard standing at its spawn with
zero velocity, waypoint index 0 and the single spawn waypoint. -/
def standsAtSpawn (x y : ℚ) (g : Guard) : Prop :=
  g.state = .PATROLLING ∧ g.position = ⟨x, y⟩ ∧ g.velocity = ⟨0, 0⟩ ∧
  g.current_patrol_point = 0 ∧ g.patrol_points = [⟨x, y⟩]

/-- One patrol update preserves the C8 invariant and raises nothing:
waiting keeps the velocity zero, and on arrival at the spawn
waypoint (distance 0 < 2) the index advances by `(0 + 1) % 1 = 0`. -/
lemma patrol_step_preserves (ops : RealOps) (x y dt : ℚ) (g : Guard)
    (hg : standsAtSpawn x y g) :
    ∃ g2, g.update dt none [] 0 0 0 ops = Except.ok g2 ∧ standsAtSpawn x y g2 := by
  obtain ⟨hstate, hpos, hvel, hidx, hpts⟩ := hg
  have h04 : (0:ℚ) < 4 := by norm_num
  by_cases hw : 0 < g.wait_timer
  · simp [Guard.update, Guard.handle_patrol, Guard.move, standsAtSpawn, Bind.bind, Except.bind,
      hstate, hpos, hvel, hidx, hpts, hw, h04, Vec.add, Vec.smul, Vec.sub, Vec.lenSq]
  · simp [Guard.update, Guard.handle_patrol, Guard.move, standsAtSpawn, Bind.bind, Except.bind,
      hstate, hpos, hvel, hidx, hpts, hw, h04, Vec.add, Vec.smul, Vec.sub, Vec.lenSq]

/-- Every patrol run preserves the C8 invariant. -/
lemma patrolRun_preserves (ops : RealOps) (x y : ℚ) (dts : List ℚ) :
    ∀ g : Guard, standsAtSpawn x y g →
      ∃ g2, patrolRun g dts ops = Except.ok g2 ∧ standsAtSpawn x y g2 := by
  induction dts with
  | nil => exact fun g hg => ⟨g, rfl, hg⟩
  | cons dt rest ih =>
    intro g hg
    obtain ⟨g1, h1, hg1⟩ := patrol_step_preserves ops x y dt g hg
    obtain ⟨g2, h2, hg2⟩ := ih g1 hg1
    refine ⟨g2, ?_, hg2⟩
    unfold patrolRun at h2 ⊢
    rw [List.foldlM_cons, h1]
    simpa using h2

/-- C8.  A guard constructed with an empty or absent patrol route
gets the single spawn waypoint; over any sequence of patrol-state
updates no exception occurs (in particular no division by zero and no
out-of-bounds waypoint index), the velocity stays zero, the guard
stays at its spawn, and the waypoint index stays 0, strictly below
the route length. -/
theorem c8_empty_patrol_route (ops : RealOps) (x y : ℚ) (pts : Option (List Vec))
    (dts : List ℚ) (hpts : pts = none ∨ pts = some []) :
    (mkGuard x y pts).patrol_points = [⟨x, y⟩]
    ∧ ∃ g2, patrolRun (mkGuard x y pts) dts ops = Except.ok g2 ∧ standsAtSpawn x y g2
        ∧ g2.current_patrol_point < g2.patrol_points.length := by
  have hg : standsAtSpawn x y (mkGuard x y pts) := by
    rcases hpts with h | h <;> subst h <;> exact ⟨rfl, rfl, rfl, rfl, rfl⟩
  refine ⟨hg.2.2.2.2, ?_⟩
  obtain ⟨g2, h2, hg2⟩ := patrolRun_preserves ops x y dts _ hg
  refine ⟨g2, h2, hg2, ?_⟩
  rw [hg2.2.2.2.1, hg2.2.2.2.2]
  simp

/-- Witness for C8: three ticks of a guard spawned at (3, 4) with no
patrol route. -/
theorem c8_empty_patrol_route_witness :
    (mkGuard 3 4 none).patrol_points = [⟨3, 4⟩]
    ∧ ∃ g2, patrolRun (mkGuard 3 4 none) [1/30, 1/30, 5] trivialOps = Except.ok g2
        ∧ standsAtSpawn 3 4 g2
        ∧ g2.current_patrol_point < g2.patrol_points.length :=
  c8_empty_patrol_route trivialOps 3 4 none [1/30, 1/30, 5] (Or.inl rfl)

end PixelHeist
